import Mathlib

/-
Verification of the buzz_uploader terminal file uploader (buzz_uploader/app.py).
The Python source is shallowly embedded: the filesystem is a snapshot function
from paths (component lists) to entries, the HTTP layer is an oracle passed as
an argument, and every stateful method becomes a pure function on the data it
reads and writes.  Paths are modeled as lists of components; rendering a path
joins them with slashes, so string comparison of rendered paths used by the
source coincides with component-list equality.
-/

namespace BuzzUploader

/-- A filesystem entry at one instant: a regular file with its size and an
optional read-error (none means readable), a directory, or some other kind of
node (socket, device, ...). -/
inductive FsEntry where
  | file (size : Nat) (readErr : Option String)
  | dir
  | other

/-- A filesystem snapshot: each absolute path (list of components) maps to the
entry living there, or none when the path does not exist. -/
abbrev FS : Type := List String → Option FsEntry

/-- Rendering of an absolute path, as Python str(Path) does. -/
def pathStr (p : List String) : String :=
  "/" ++ String.intercalate "/" p

/-- Last component of a path, as Python pathlib Path.name. -/
def pathName (p : List String) : String :=
  (p.getLast?).getD ""

/-- FileItem (app.py, class FileItem): descriptor of one filesystem node with
cached metadata and upload state. -/
structure FileItem where
  path : List String
  is_dir : Bool
  size : Nat
  name : String
  is_selected : Bool
  upload_url : Option String

/-- FileItem.__init__ (app.py lines 86-110): stats the path if it exists,
falls back to is_dir = false, size = 0 otherwise; a directory is never
created selected; upload_url starts unset. -/
def FileItem.init (fs : FS) (p : List String) (sel : Bool) : FileItem :=
  let d : Bool := match fs p with | some FsEntry.dir => true | _ => false
  let sz : Nat := match fs p with | some (FsEntry.file n _) => n | _ => 0
  { path := p
    is_dir := d
    size := sz
    name := pathName p
    is_selected := if d then false else sel
    upload_url := none }

/-- The is_selected property setter (app.py lines 117-125): assigning true to
a directory is silently ignored. -/
def FileItem.setSelected (f : FileItem) (v : Bool) : FileItem :=
  if f.is_dir && v then f else { f with is_selected := v }

/-- UploadConfig (app.py lines 36-49). -/
structure UploadConfig where
  api_key : Option String
  parent_id : Option String
  location_id : Option String
  note : Option String
  base_url : String
  api_url : String

/-- Python truthiness of an optional string: None and the empty string are
falsy, every other string is truthy. -/
def truthy : Option String → Bool
  | none => false
  | some s => !(s == "")

/-- SettingsScreen.action_save (app.py lines 206-218): all four fields are
overwritten from the input widgets (plain strings, possibly empty); the
BUZZHEAVIER_API_KEY environment variable (modeled as an optional string) is
written only when the new key is truthy, and is never cleared. -/
def action_save (cfg : UploadConfig) (env : Option String)
    (apiKeyIn parentIn locIn noteIn : String) : UploadConfig × Option String :=
  let cfg2 : UploadConfig :=
    { cfg with
      api_key := some apiKeyIn
      parent_id := some parentIn
      location_id := some locIn
      note := some noteIn }
  let env2 : Option String := if truthy cfg2.api_key then some apiKeyIn else env
  (cfg2, env2)

/-- Header construction in upload_file (app.py lines 515-521): a bearer
header when the api key is truthy, nothing otherwise. -/
def buildHeaders (cfg : UploadConfig) : List (String × String) :=
  if truthy cfg.api_key then
    [("Authorization", "Bearer " ++ cfg.api_key.getD "")]
  else []

/-- UTF-8 encoding of one character (the bytes Python str.encode yields). -/
def utf8EncodeChar (c : Char) : List Nat :=
  let n := c.toNat
  if n < 128 then [n]
  else if n < 2048 then [192 + n / 64, 128 + n % 64]
  else if n < 65536 then [224 + n / 4096, 128 + n / 64 % 64, 128 + n % 64]
  else [240 + n / 262144, 128 + n / 4096 % 64, 128 + n / 64 % 64, 128 + n % 64]

/-- UTF-8 encoding of a string as a byte list. -/
def utf8Bytes (s : String) : List Nat :=
  s.data.flatMap utf8EncodeChar

/-- The base64 alphabet used by base64.b64encode. -/
def b64Alphabet : String :=
  "ABCDEFGHIJKLMNOPQRSTUVWXYZabcdefghijklmnopqrstuvwxyz0123456789+/"

/-- Character of the base64 alphabet at a given index. -/
def b64Char (n : Nat) : Char :=
  b64Alphabet.data.getD n 'A'

/-- Standard base64 with padding, as base64.b64encode produces. -/
def b64encode : List Nat → String
  | b0 :: b1 :: b2 :: rest =>
    let n := b0 * 65536 + b1 * 256 + b2
    String.mk [b64Char (n / 262144 % 64), b64Char (n / 4096 % 64),
               b64Char (n / 64 % 64), b64Char (n % 64)] ++ b64encode rest
  | [b0, b1] =>
    let n := b0 * 65536 + b1 * 256
    String.mk [b64Char (n / 262144 % 64), b64Char (n / 4096 % 64),
               b64Char (n / 64 % 64)] ++ "="
  | [b0] =>
    let n := b0 * 65536
    String.mk [b64Char (n / 262144 % 64), b64Char (n / 4096 % 64)] ++ "=="
  | [] => ""

/-- URL and query-parameter construction in upload_file (app.py lines
494-513): the target starts as base_url/filename; a truthy parent_id rewrites
it to base_url/parent_id/filename and suppresses location_id; otherwise a
truthy location_id is added as the locationId query parameter; a truthy note
is base64-encoded and added as the note query parameter in either case. -/
def buildRequest (cfg : UploadConfig) (name : String) :
    String × List (String × String) :=
  let url0 := cfg.base_url ++ "/" ++ name
  let urlParams : String × List (String × String) :=
    if truthy cfg.parent_id then
      (cfg.base_url ++ "/" ++ cfg.parent_id.getD "" ++ "/" ++ name, [])
    else if truthy cfg.location_id then
      (url0, [("locationId", cfg.location_id.getD "")])
    else (url0, [])
  let params :=
    if truthy cfg.note then
      urlParams.2 ++ [("note", b64encode (utf8Bytes (cfg.note.getD "")))]
    else urlParams.2
  (urlParams.1, params)

/-- JSON values as produced by json.loads: numbers keep their source literal
(normalized to lower-case exponent markers) because only their Python type,
never their numeric value, matters to the upload code. -/
inductive Json where
  | null
  | bool (b : Bool)
  | num (lit : String)
  | str (s : String)
  | arr (xs : List Json)
  | obj (kvs : List (String × Json))

/-- Skip the whitespace characters the json module skips. -/
def skipWs : List Char → List Char
  | [] => []
  | c :: cs =>
    if c = ' ' ∨ c = '\t' ∨ c = '\n' ∨ c = '\r' then skipWs cs else c :: cs

/-- Value of one hexadecimal digit. -/
def hexVal (c : Char) : Option Nat :=
  if '0' ≤ c ∧ c ≤ '9' then some (c.toNat - 48)
  else if 'a' ≤ c ∧ c ≤ 'f' then some (c.toNat - 87)
  else if 'A' ≤ c ∧ c ≤ 'F' then some (c.toNat - 70)
  else none

/-- Body of a JSON string literal after the opening quote.  Standard escapes
are decoded; a bare control character is a decode error; a \u escape yields
its scalar value, with surrogate halves that do not form a pair mapped to the
replacement character (Python would keep lone surrogates, which a Lean Char
cannot represent; no code path in the program inspects such strings). -/
def parseStrBody : Nat → List Char → List Char → Option (String × List Char)
  | 0, _, _ => none
  | _ + 1, _, [] => none
  | fuel + 1, acc, c :: cs =>
    if c = '"' then some (String.mk acc.reverse, cs)
    else if c = '\\' then
      match cs with
      | [] => none
      | e :: cs2 =>
        if e = '"' then parseStrBody fuel ('"' :: acc) cs2
        else if e = '\\' then parseStrBody fuel ('\\' :: acc) cs2
        else if e = '/' then parseStrBody fuel ('/' :: acc) cs2
        else if e = 'b' then parseStrBody fuel ('\x08' :: acc) cs2
        else if e = 'f' then parseStrBody fuel ('\x0c' :: acc) cs2
        else if e = 'n' then parseStrBody fuel ('\n' :: acc) cs2
        else if e = 'r' then parseStrBody fuel ('\r' :: acc) cs2
        else if e = 't' then parseStrBody fuel ('\t' :: acc) cs2
        else if e = 'u' then
          match cs2 with
          | h1 :: h2 :: h3 :: h4 :: cs3 =>
            match hexVal h1, hexVal h2, hexVal h3, hexVal h4 with
            | some a, some b, some c2, some d =>
              let n := a * 4096 + b * 256 + c2 * 16 + d
              let ch := if n < 55296 ∨ 57343 < n then Char.ofNat n else '�'
              parseStrBody fuel (ch :: acc) cs3
            | _, _, _, _ => none
          | _ => none
        else none
    else if c.toNat < 32 then none
    else parseStrBody fuel (c :: acc) cs

/-- Exponent part of a JSON number literal. -/
def parseExp (lit : String) (t : List Char) : Option (String × List Char) :=
  let sgn : String × List Char :=
    match t with
    | '+' :: r => ("+", r)
    | '-' :: r => ("-", r)
    | _ => ("", t)
  let ed := sgn.2.takeWhile Char.isDigit
  let t2 := sgn.2.dropWhile Char.isDigit
  if ed.isEmpty then none
  else some (lit ++ "e" ++ sgn.1 ++ String.mk ed, t2)

/-- A JSON number literal in the grammar json.loads accepts: optional minus,
integer part without leading zeros, optional fraction, optional exponent. -/
def parseNum (cs : List Char) : Option (String × List Char) :=
  let signed : String × List Char :=
    match cs with
    | '-' :: t => ("-", t)
    | _ => ("", cs)
  let ds := signed.2.takeWhile Char.isDigit
  let cs2 := signed.2.dropWhile Char.isDigit
  if ds.isEmpty then none
  else if ds.headD '1' = '0' ∧ 1 < ds.length then none
  else
    let withInt := signed.1 ++ String.mk ds
    let fracRes : Option (String × List Char) :=
      match cs2 with
      | '.' :: t =>
        let fd := t.takeWhile Char.isDigit
        let t2 := t.dropWhile Char.isDigit
        if fd.isEmpty then none else some (withInt ++ "." ++ String.mk fd, t2)
      | _ => some (withInt, cs2)
    match fracRes with
    | none => none
    | some (lit2, cs3) =>
      match cs3 with
      | 'e' :: t => parseExp lit2 t
      | 'E' :: t => parseExp lit2 t
      | _ => some (lit2, cs3)

/-- Replace the value of a key in an object, or append the pair; this is the
dict update json.loads performs on duplicate keys. -/
def insertKey : List (String × Json) → String → Json → List (String × Json)
  | [], k, v => [(k, v)]
  | (k2, v2) :: rest, k, v =>
    if k2 = k then (k2, v) :: rest else (k2, v2) :: insertKey rest k v

/-- Left fold of pairs into a duplicate-free object, matching dict insertion
order with later duplicates overwriting earlier values. -/
def dedupPairs (l : List (String × Json)) : List (String × Json) :=
  l.foldl (fun acc kv => insertKey acc kv.1 kv.2) []

mutual

/-- One JSON value, fuel-bounded recursive descent matching json.loads
(including its nonstandard NaN and Infinity literals). -/
def parseValue : Nat → List Char → Option (Json × List Char)
  | 0, _ => none
  | fuel + 1, cs =>
    match skipWs cs with
    | 'n' :: 'u' :: 'l' :: 'l' :: rest => some (Json.null, rest)
    | 't' :: 'r' :: 'u' :: 'e' :: rest => some (Json.bool true, rest)
    | 'f' :: 'a' :: 'l' :: 's' :: 'e' :: rest => some (Json.bool false, rest)
    | 'N' :: 'a' :: 'N' :: rest => some (Json.num "NaN", rest)
    | 'I' :: 'n' :: 'f' :: 'i' :: 'n' :: 'i' :: 't' :: 'y' :: rest =>
      some (Json.num "Infinity", rest)
    | '-' :: 'I' :: 'n' :: 'f' :: 'i' :: 'n' :: 'i' :: 't' :: 'y' :: rest =>
      some (Json.num "-Infinity", rest)
    | '"' :: rest =>
      match parseStrBody fuel [] rest with
      | some (s, r) => some (Json.str s, r)
      | none => none
    | '[' :: rest => parseArrItems fuel rest
    | '\x7b' :: rest => parseObjItems fuel rest
    | cs2 =>
      match parseNum cs2 with
      | some (l, r) => some (Json.num l, r)
      | none => none

/-- Elements of an array after the opening bracket. -/
def parseArrItems : Nat → List Char → Option (Json × List Char)
  | 0, _ => none
  | fuel + 1, cs =>
    match skipWs cs with
    | ']' :: rest => some (Json.arr [], rest)
    | cs2 =>
      match parseValue fuel cs2 with
      | none => none
      | some (v, r) =>
        match parseArrTail fuel r with
        | none => none
        | some (vs, r2) => some (Json.arr (v :: vs), r2)

/-- Remaining elements of an array after one parsed element. -/
def parseArrTail : Nat → List Char → Option (List Json × List Char)
  | 0, _ => none
  | fuel + 1, cs =>
    match skipWs cs with
    | ']' :: rest => some ([], rest)
    | ',' :: rest =>
      match parseValue fuel rest with
      | none => none
      | some (v, r) =>
        match parseArrTail fuel r with
        | none => none
        | some (vs, r2) => some (v :: vs, r2)
    | _ => none

/-- Members of an object after the opening brace. -/
def parseObjItems : Nat → List Char → Option (Json × List Char)
  | 0, _ => none
  | fuel + 1, cs =>
    match skipWs cs with
    | '\x7d' :: rest => some (Json.obj [], rest)
    | '"' :: rest =>
      match parseStrBody fuel [] rest with
      | none => none
      | some (k, r) =>
        match skipWs r with
        | ':' :: r2 =>
          match parseValue fuel r2 with
          | none => none
          | some (v, r3) =>
            match parseObjTail fuel r3 with
            | none => none
            | some (kvs, r4) => some (Json.obj (dedupPairs ((k, v) :: kvs)), r4)
        | _ => none
    | _ => none

/-- Remaining members of an object after one parsed pair. -/
def parseObjTail : Nat → List Char → Option (List (String × Json) × List Char)
  | 0, _ => none
  | fuel + 1, cs =>
    match skipWs cs with
    | '\x7d' :: rest => some ([], rest)
    | ',' :: rest =>
      match skipWs rest with
      | '"' :: r =>
        match parseStrBody fuel [] r with
        | none => none
        | some (k, r2) =>
          match skipWs r2 with
          | ':' :: r3 =>
            match parseValue fuel r3 with
            | none => none
            | some (v, r4) =>
              match parseObjTail fuel r4 with
              | none => none
              | some (kvs, r5) => some ((k, v) :: kvs, r5)
          | _ => none
      | _ => none
    | _ => none

end

/-- json.loads: parse one value and require only whitespace after it.  The
fuel is generous: a successful descent performs far fewer than eight calls
per input character. -/
def Json.parse (s : String) : Option Json :=
  let cs := s.data
  match parseValue (8 * cs.length + 32) cs with
  | some (j, rest) => if (skipWs rest).isEmpty then some j else none
  | none => none

/-- Whether one character list starts with another. -/
def leadEq : List Char → List Char → Bool
  | [], _ => true
  | _ :: _, [] => false
  | a :: as, b :: bs => a == b && leadEq as bs

/-- Whether a character list contains another as a contiguous run. -/
def hasSubList : List Char → List Char → Bool
  | [], nee => nee.isEmpty
  | c :: t, nee => leadEq nee (c :: t) || hasSubList t nee

/-- Python substring membership, the meaning of the in operator on str. -/
def strHasSub (hay nee : String) : Bool :=
  hasSubList hay.data nee.data

/-- The Python type name of a decoded JSON value, as it appears in TypeError
messages; a numeric literal with a fraction, exponent, or nonfinite spelling
decodes to float, any other to int. -/
def pyTypeName : Json → String
  | Json.null => "NoneType"
  | Json.bool _ => "bool"
  | Json.num lit =>
    if lit.contains '.' ∨ lit.contains 'e' ∨ lit.contains 'n' then "float"
    else "int"
  | Json.str _ => "str"
  | Json.arr _ => "list"
  | Json.obj _ => "dict"

/-- Fuel-bounded Python repr of a decoded JSON value (containers render with
single-quoted strings); only reached through pyStr on containers, which no
code path of the program exercises with container ids. -/
def pyReprF : Nat → Json → String
  | 0, _ => ""
  | fuel + 1, j =>
    match j with
    | Json.null => "None"
    | Json.bool true => "True"
    | Json.bool false => "False"
    | Json.num lit => lit
    | Json.str s => "\x27" ++ s ++ "\x27"
    | Json.arr xs =>
      "[" ++ String.intercalate ", " (xs.map (pyReprF fuel)) ++ "]"
    | Json.obj kvs =>
      "\x7b" ++
        String.intercalate ", "
          (kvs.map (fun kv => "\x27" ++ kv.1 ++ "\x27: " ++ pyReprF fuel kv.2)) ++
        "\x7d"

mutual

/-- Executable size of a JSON value, an upper bound on its nesting depth. -/
def jsonSize : Json → Nat
  | Json.arr xs => 1 + jsonSizeList xs
  | Json.obj kvs => 1 + jsonSizePairs kvs
  | _ => 1

/-- Summed size of a list of JSON values. -/
def jsonSizeList : List Json → Nat
  | [] => 0
  | x :: xs => jsonSize x + jsonSizeList xs

/-- Summed size of the values of an object. -/
def jsonSizePairs : List (String × Json) → Nat
  | [] => 0
  | kv :: kvs => jsonSize kv.2 + jsonSizePairs kvs

end

/-- Python str of a decoded JSON value, used by the f-string that builds the
download URL. -/
def pyStr (j : Json) : String :=
  match j with
  | Json.str s => s
  | Json.null => "None"
  | Json.bool true => "True"
  | Json.bool false => "False"
  | Json.num lit => lit
  | j2 => pyReprF (jsonSize j2 + 1) j2

/-- First value stored under a key of a decoded JSON object (objects coming
out of Json.parse are duplicate-free, so this is dict lookup). -/
def objLookup : List (String × Json) → String → Option Json
  | [], _ => none
  | (k2, v) :: rest, k => if k2 == k then some v else objLookup rest k

/-- The Python expression key in value on a decoded JSON value: key test on
a dict, substring test on a str, element equality on a list, and a TypeError
for the non-iterable types. -/
def jsonContains (key : String) : Json → Except String Bool
  | Json.obj kvs => Except.ok (kvs.any (fun kv => kv.1 == key))
  | Json.str s => Except.ok (strHasSub s key)
  | Json.arr xs =>
    Except.ok (xs.any (fun x => match x with
      | Json.str t => t == key
      | _ => false))
  | j =>
    Except.error ("argument of type \x27" ++ pyTypeName j ++
      "\x27 is not iterable")

/-- The Python expression value[key] on a decoded JSON value: dict lookup,
and a TypeError on every other type (str and list reject string indices). -/
def jsonSubscript (j : Json) (k : String) : Except String Json :=
  match j with
  | Json.obj kvs =>
    match objLookup kvs k with
    | some v => Except.ok v
    | none => Except.error ("\x27" ++ k ++ "\x27")
  | Json.str _ => Except.error "string indices must be integers"
  | Json.arr _ => Except.error "list indices must be integers or slices, not str"
  | j2 =>
    Except.error ("\x27" ++ pyTypeName j2 ++
      "\x27 object is not subscriptable")

/-- Evaluation of the 201 branch of do_upload (app.py lines 555-560) on the
decoded body: the short-circuit condition
(data in body) and (id in body[data]) followed, when true, by the extraction
body[data][id]; ok none means the condition came out false, ok some v is the
extracted id, and error is a raised exception escaping the
except-JSONDecodeError handler. -/
def extractId (j : Json) : Except String (Option Json) :=
  match jsonContains "data" j with
  | Except.error e => Except.error e
  | Except.ok false => Except.ok none
  | Except.ok true =>
    match jsonSubscript j "data" with
    | Except.error e => Except.error e
    | Except.ok d =>
      match jsonContains "id" d with
      | Except.error e => Except.error e
      | Except.ok false => Except.ok none
      | Except.ok true =>
        match jsonSubscript d "id" with
        | Except.error e => Except.error e
        | Except.ok v => Except.ok (some v)

/-- The ASCII whitespace characters Python str.strip removes. -/
def pySpace (c : Char) : Bool :=
  c = ' ' ∨ c = '\t' ∨ c = '\n' ∨ c = '\r' ∨ c = '\x0b' ∨ c = '\x0c'

/-- Python str.strip: drop leading and trailing whitespace. -/
def pyStrip (s : String) : String :=
  String.mk (((s.data.dropWhile pySpace).reverse.dropWhile pySpace).reverse)

/-- The raw-text success message of do_upload (app.py line 564): the stripped
body, or the generic message when the stripped body is empty. -/
def rawMsg (f : FileItem) (text : String) : String :=
  if pyStrip text == "" then "File " ++ f.name ++ " uploaded successfully"
  else pyStrip text

/-- The response interpretation of do_upload (app.py lines 550-566) given the
HTTP status and body: 200 and 201 are success codes; a 201 whose body decodes
to JSON holding a nested data.id synthesizes the public download URL, stores
it on the FileItem and reports name: url; a JSON decode error falls back to
the raw-text message; any other exception inside the try block escapes to the
outer handler of do_upload and becomes an Upload request failed outcome; any
other status is the Error: HTTP status - body failure. -/
def interpretResponse (f : FileItem) (status : Nat) (text : String) :
    FileItem × Bool × String :=
  if status = 200 ∨ status = 201 then
    match Json.parse text with
    | some j =>
      if status = 201 then
        match extractId j with
        | Except.error e => (f, false, "Upload request failed: " ++ e)
        | Except.ok (some v) =>
          let full_url := "https://buzzheavier.com/" ++ pyStr v
          ({ f with upload_url := some full_url }, true,
           f.name ++ ": " ++ full_url)
        | Except.ok none => (f, true, rawMsg f text)
      else (f, true, rawMsg f text)
    | none => (f, true, rawMsg f text)
  else
    (f, false, "Error: HTTP " ++ toString status ++ " - " ++ text)

/-- upload_file (app.py lines 466-582) over a filesystem snapshot taken at
upload time and a network oracle mapping the request (url, headers, query
parameters) to the HTTP response or to a transport exception.  The checks run
in source order: existence, regular-file kind, readability; then the request
is built and sent and the response interpreted.  The body bytes are the file
content, which the oracle may ignore. -/
def upload_file (fs : FS) (cfg : UploadConfig)
    (net : String → List (String × String) → List (String × String) →
      Except String (Nat × String))
    (f : FileItem) : FileItem × Bool × String :=
  match fs f.path with
  | none => (f, false, "File does not exist: " ++ pathStr f.path)
  | some FsEntry.dir => (f, false, "Not a valid file: " ++ pathStr f.path)
  | some FsEntry.other => (f, false, "Not a valid file: " ++ pathStr f.path)
  | some (FsEntry.file _ (some err)) => (f, false, "Cannot read file: " ++ err)
  | some (FsEntry.file _ none) =>
    let req := buildRequest cfg f.name
    match net req.1 (buildHeaders cfg) req.2 with
    | Except.error e => (f, false, "Upload request failed: " ++ e)
    | Except.ok resp => interpretResponse f resp.1 resp.2

/-- The queue filter of UploadProgressScreen.__init__ (app.py lines 246-268)
over the filesystem snapshot at screen construction: unselected entries,
directories, vanished paths and non-regular files are silently dropped. -/
def prepare_upload_files (fs : FS) (files : List FileItem) : List FileItem :=
  files.filter (fun f =>
    f.is_selected && !f.is_dir &&
      (match fs f.path with
       | some (FsEntry.file _ _) => true
       | _ => false))

/-- One iteration of the start_uploads loop (app.py lines 407-443): the step
either completes with an outcome (ok) or raises (error), and a raised
exception is recorded as a failed outcome for the current file. -/
def outcomeOf (step : FileItem → Except String (FileItem × Bool × String))
    (f : FileItem) : FileItem × Bool × String :=
  match step f with
  | Except.ok r => r
  | Except.error e => (f, false, "Error: " ++ e)

/-- The start_uploads loop (app.py lines 407-443): one outcome is appended
per queued file, in queue order. -/
def runPipeline (step : FileItem → Except String (FileItem × Bool × String)) :
    List FileItem → List (FileItem × Bool × String)
  | [] => []
  | f :: rest => outcomeOf step f :: runPipeline step rest

/-- The per-file step actually used by start_uploads: upload_file catches its
own exceptions and always returns an outcome. -/
def uploadStep (fs : FS) (cfg : UploadConfig)
    (net : String → List (String × String) → List (String × String) →
      Except String (Nat × String)) :
    FileItem → Except String (FileItem × Bool × String) :=
  fun f => Except.ok (upload_file fs cfg net f)

/-- Full pipeline from the selection list: the queue is filtered against the
filesystem snapshot fs0 at screen construction, then each queued file is
uploaded against the snapshot fs1 at upload time. -/
def pipelineFromSelection (fs0 fs1 : FS) (cfg : UploadConfig)
    (net : String → List (String × String) → List (String × String) →
      Except String (Nat × String))
    (files : List FileItem) : List (FileItem × Bool × String) :=
  runPipeline (uploadStep fs1 cfg net) (prepare_upload_files fs0 files)

/-- Whether some selected entry has the given path; the source compares
rendered path strings, which agrees with component-list equality. -/
def hasPath (sel : List FileItem) (p : List String) : Bool :=
  sel.any (fun f => f.path == p)

/-- The selection-toggle operation of _toggle_select_file (app.py lines
879-975) on the selection list: directories and vanished paths are silent
no-ops; a selected path is removed (every entry carrying it); an unselected
live path is appended at the end as a freshly constructed selected
FileItem. -/
def toggle (fs : FS) (sel : List FileItem) (p : List String) :
    List FileItem :=
  if (match fs p with | some FsEntry.dir => true | _ => false) then sel
  else if (fs p).isNone then sel
  else if sel.any (fun f => f.path == p) then
    sel.filter (fun f => !(f.path == p))
  else
    let fi := FileItem.init fs p true
    if fi.is_dir then sel else sel ++ [fi]

/-- The guard _toggle_select_file applies before mutating the selection
(app.py lines 918-925): the path must not be a directory and must still
exist. -/
def selectablePath (fs : FS) (p : List String) : Bool :=
  match fs p with
  | some FsEntry.dir => false
  | none => false
  | _ => true

/-- A filesystem with two regular files, used as concrete input. -/
def fsAB : FS := fun p =>
  if p = ["u", "a"] then some (FsEntry.file 1 none)
  else if p = ["u", "b"] then some (FsEntry.file 2 none)
  else none

/-- A filesystem with a single regular file, used as concrete input. -/
def fsA : FS := fun p =>
  if p = ["u", "a"] then some (FsEntry.file 1 none) else none

/-- The empty filesystem: every path has vanished. -/
def fsGone : FS := fun _ => none

/-- A filesystem with a single directory, used as concrete input. -/
def fsD : FS := fun p =>
  if p = ["home", "docs"] then some FsEntry.dir else none

/-- Selected FileItem for the first concrete file. -/
def iA : FileItem := FileItem.init fsAB ["u", "a"] true

/-- Selected FileItem for the second concrete file. -/
def iB : FileItem := FileItem.init fsAB ["u", "b"] true

/-- FileItem constructed for the concrete directory. -/
def dirItem : FileItem := FileItem.init fsD ["home", "docs"] true

/-- A concrete FileItem for a small report file. -/
def iR : FileItem :=
  { path := ["home", "u", "report.pdf"]
    is_dir := false
    size := 4
    name := "report.pdf"
    is_selected := true
    upload_url := none }

/-- Default-like configuration with nothing set. -/
def cfg0 : UploadConfig :=
  { api_key := none
    parent_id := none
    location_id := none
    note := none
    base_url := "https://w.buzzheavier.com"
    api_url := "https://buzzheavier.com/api" }

/-- Configuration with every option set, parent directory included. -/
def cfgW : UploadConfig :=
  { api_key := some "K"
    parent_id := some "abc123"
    location_id := some "LOC1"
    note := some "hello"
    base_url := "https://w.buzzheavier.com"
    api_url := "https://buzzheavier.com/api" }

/-- Configuration with a location but no parent directory. -/
def cfgL : UploadConfig :=
  { cfgW with parent_id := none }

/-- Network oracle answering every request with an empty 200 response. -/
def net0 : String → List (String × String) → List (String × String) →
    Except String (Nat × String) :=
  fun _ _ _ => Except.ok (200, "")

/-- A 201 body carrying a nested data.id field. -/
def bodyIdW : String := "\x7b\"data\":\x7b\"id\":\"xyz9\"\x7d\x7d"

/-- The object decoded from bodyIdW. -/
def kvsW : List (String × Json) := [("data", Json.obj [("id", Json.str "xyz9")])]

/-- The nested object decoded from bodyIdW. -/
def kvs2W : List (String × Json) := [("id", Json.str "xyz9")]

/-- A pipeline step that always completes. -/
def stepOkW : FileItem → Except String (FileItem × Bool × String) :=
  fun f => Except.ok (f, true, "ok")

/-- A pipeline step that always raises. -/
def stepErrW : FileItem → Except String (FileItem × Bool × String) :=
  fun _ => Except.error "boom"

/-- The pipeline loop yields one outcome per queued file. -/
lemma runPipeline_length
    (step : FileItem → Except String (FileItem × Bool × String))
    (l : List FileItem) : (runPipeline step l).length = l.length := by
  induction l with
  | nil => rfl
  | cons f t ih => simp [runPipeline, ih]

/-- The pipeline loop distributes over a decomposition of the queue. -/
lemma runPipeline_append
    (step : FileItem → Except String (FileItem × Bool × String))
    (xs : List FileItem) (f : FileItem) (ys : List FileItem) :
    runPipeline step (xs ++ f :: ys) =
      runPipeline step xs ++ outcomeOf step f :: runPipeline step ys := by
  induction xs with
  | nil => rfl
  | cons a t ih => simp [runPipeline, ih]

/-- A successful key lookup means the key test of the dict succeeds. -/
lemma objLookup_any (kvs : List (String × Json)) (k : String) (v : Json)
    (h : objLookup kvs k = some v) :
    kvs.any (fun kv => kv.1 == k) = true := by
  induction kvs with
  | nil => simp [objLookup] at h
  | cons kv t ih =>
    rcases kv with ⟨k2, v2⟩
    by_cases hk : (k2 == k) = true
    · simp [List.any_cons, hk]
    · simp only [objLookup, hk, if_neg, Bool.false_eq_true, if_false] at h
      simp [List.any_cons, hk, ih h]

/-- On an object holding a nested data.id pair, the 201 extraction of
do_upload returns that id. -/
lemma extractId_obj (kvs kvs2 : List (String × Json)) (i : String)
    (hdata : objLookup kvs "data" = some (Json.obj kvs2))
    (hid : objLookup kvs2 "id" = some (Json.str i)) :
    extractId (Json.obj kvs) = Except.ok (some (Json.str i)) := by
  have ha := objLookup_any kvs "data" _ hdata
  have hb := objLookup_any kvs2 "id" _ hid
  simp only [extractId, jsonContains, jsonSubscript, ha, hdata, hb, hid]

/-- After removing every entry with a path, no entry with that path is
left. -/
lemma filterPath_any_self (sel : List FileItem) (p : List String) :
    (sel.filter (fun f => !(f.path == p))).any (fun f => f.path == p) =
      false := by
  induction sel with
  | nil => rfl
  | cons f t ih =>
    by_cases h : (f.path == p) = true
    · simp [List.filter_cons, h, ih]
    · simp only [Bool.not_eq_true] at h
      simp [List.filter_cons, h, ih]

/-- Removing the entries of one path leaves the membership test of any other
path unchanged. -/
lemma filterPath_any_other (sel : List FileItem) (p q : List String)
    (hpq : (p == q) = false) :
    (sel.filter (fun f => !(f.path == p))).any (fun f => f.path == q) =
      sel.any (fun f => f.path == q) := by
  induction sel with
  | nil => rfl
  | cons f t ih =>
    by_cases h : (f.path == p) = true
    · have hfp : f.path = p := by simpa using h
      have hfq : (f.path == q) = false := by
        rw [hfp]; exact hpq
      simp [List.filter_cons, h, List.any_cons, hfq, ih]
    · simp only [Bool.not_eq_true] at h
      simp [List.filter_cons, h, List.any_cons, ih]

/-- Removing the entries of a path that is not present is the identity. -/
lemma filterPath_of_not_any (sel : List FileItem) (p : List String)
    (h : sel.any (fun f => f.path == p) = false) :
    sel.filter (fun f => !(f.path == p)) = sel := by
  induction sel with
  | nil => rfl
  | cons f t ih =>
    simp only [List.any_cons, Bool.or_eq_false_iff] at h
    simp [List.filter_cons, h.1, ih h.2]

/-- On a live non-directory path the toggle either removes the path or
appends a fresh selected FileItem for it. -/
lemma toggle_eq (fs : FS) (sel : List FileItem) (p : List String)
    (hlive : selectablePath fs p = true) :
    toggle fs sel p =
      if sel.any (fun f => f.path == p) then
        sel.filter (fun f => !(f.path == p))
      else sel ++ [FileItem.init fs p true] := by
  unfold selectablePath at hlive
  unfold toggle
  rcases hfs : fs p with _ | e
  · rw [hfs] at hlive; simp at hlive
  · cases e with
    | dir => rw [hfs] at hlive; simp at hlive
    | file sz re =>
      have hfi : (FileItem.init fs p true).is_dir = false := by
        simp [FileItem.init, hfs]
      simp [hfs, hfi]
    | other =>
      have hfi : (FileItem.init fs p true).is_dir = false := by
        simp [FileItem.init, hfs]
      simp [hfs, hfi]

/-- Toggling a path that is not selected and then toggling it again restores
the selection list exactly. -/
lemma toggle_twice_restore (fs : FS) (sel : List FileItem) (p : List String)
    (hlive : selectablePath fs p = true)
    (hsel : sel.any (fun f => f.path == p) = false) :
    toggle fs (toggle fs sel p) p = sel := by
  rw [toggle_eq fs sel p hlive, if_neg (by simp [hsel])]
  rw [toggle_eq fs _ p hlive]
  have hany2 : (sel ++ [FileItem.init fs p true]).any
      (fun f => f.path == p) = true := by
    simp [List.any_append, FileItem.init]
  rw [if_pos hany2]
  rw [List.filter_append, filterPath_of_not_any sel p hsel]
  simp [FileItem.init]

/-- Claim C1: for every queue accepted at pipeline start, the start_uploads
loop appends exactly one outcome per queued file, in queue order (each
outcome carries the queued FileItem, whose path the per-file step never
changes), regardless of which uploads fail; and a step that raises on one
file is recorded as a failed outcome with message Error: detail while the
loop proceeds unchanged on the files before and after it. -/
theorem pipeline_outcome_count
    (step : FileItem → Except String (FileItem × Bool × String))
    (files : List FileItem)
    (hstep : ∀ f r, step f = Except.ok r → r.1.path = f.path) :
    (runPipeline step files).length = files.length ∧
    (runPipeline step files).map (fun r => r.1.path) =
      files.map (fun f => f.path) ∧
    ∀ xs f ys e, files = xs ++ f :: ys → step f = Except.error e →
      runPipeline step files =
        runPipeline step xs ++
          ((f, false, "Error: " ++ e) :: runPipeline step ys) := by
  refine ⟨runPipeline_length step files, ?_, ?_⟩
  · induction files with
    | nil => rfl
    | cons f t ih =>
      simp only [runPipeline, List.map_cons, ih]
      congr 1
      unfold outcomeOf
      cases hs : step f with
      | ok r => exact hstep f r hs
      | error e => rfl
  · intro xs f ys e hsplit hf
    subst hsplit
    rw [runPipeline_append]
    have houtcome : outcomeOf step f = (f, false, "Error: " ++ e) := by
      unfold outcomeOf
      rw [hf]
    rw [houtcome]

/-- Witness for C1 at concrete inputs: a two-file queue with an always-ok
step yields two outcomes, and a one-file queue whose step raises yields the
failed outcome. -/
theorem pipeline_outcome_count_check :
    (runPipeline stepOkW [iA, iB]).length = 2 ∧
    runPipeline stepErrW [iA] = [(iA, false, "Error: boom")] := by
  constructor
  · have h := (pipeline_outcome_count stepOkW [iA, iB]
      (fun f r hr => by
        simp only [stepOkW, Except.ok.injEq] at hr
        rw [← hr])).1
    simpa using h
  · have h := (pipeline_outcome_count stepErrW [iA]
      (fun f r hr => by simp [stepErrW] at hr)).2.2
      [] iA [] "boom" rfl rfl
    simpa [runPipeline] using h

/-- Claim C6: a response status other than 200 and 201 yields a failure whose
message is exactly Error: HTTP status - body. -/
theorem resp_error_status (f : FileItem) (status : Nat) (text : String)
    (h200 : status ≠ 200) (h201 : status ≠ 201) :
    interpretResponse f status text =
      (f, false, "Error: HTTP " ++ toString status ++ " - " ++ text) := by
  simp [interpretResponse, h200, h201]

/-- Witness for C6: a 403 with body forbidden yields the exact message the
spec scenario states. -/
theorem resp_error_status_check :
    interpretResponse iR 403 "forbidden" =
      (iR, false, "Error: HTTP 403 - forbidden") := by
  have h := resp_error_status iR 403 "forbidden" (by decide) (by decide)
  rw [h]
  exact rfl

/-- Claim C7: on a 200 response the outcome is always the raw-text success
path, whatever the body is: the 201-only condition short-circuits before any
of the JSON shape checks can raise, so the result is success with the
stripped body as message (or the generic message when the stripped body is
empty), never a failure. -/
theorem resp_200_raw_success (f : FileItem) (text : String) :
    interpretResponse f 200 text = (f, true, rawMsg f text) := by
  unfold interpretResponse
  rw [if_pos (Or.inl rfl)]
  cases hp : Json.parse text with
  | none => rfl
  | some j => simp

/-- Claim C8: a directory FileItem is never selected: construction with the
selected flag forces it to false when the path is a directory, assigning
true through the setter on a directory is a no-op, and the setter preserves
the unselected state of a directory for every assigned value. -/
theorem directory_never_selected (fs : FS) (p : List String) (b : Bool)
    (f : FileItem) (v : Bool) :
    ((FileItem.init fs p b).is_dir = true →
      (FileItem.init fs p b).is_selected = false) ∧
    (f.is_dir = true → f.setSelected true = f) ∧
    (f.is_dir = true → f.is_selected = false →
      (f.setSelected v).is_selected = false) := by
  refine ⟨?_, ?_, ?_⟩
  · intro h
    simp only [FileItem.init] at h ⊢
    simp [h]
  · intro h
    simp [FileItem.setSelected, h]
  · intro h hsel
    cases v with
    | false => simp [FileItem.setSelected]
    | true => simp [FileItem.setSelected, h, hsel]

/-- Witness for C8 at a concrete directory: construction with the selected
flag set still comes out unselected, and selecting it afterwards is a
no-op. -/
theorem directory_never_selected_check :
    (FileItem.init fsD ["home", "docs"] true).is_selected = false ∧
    dirItem.setSelected true = dirItem := by
  constructor
  · exact (directory_never_selected fsD ["home", "docs"] true dirItem true).1
      (by simp [FileItem.init, fsD])
  · exact (directory_never_selected fsD ["home", "docs"] true dirItem true).2.1
      (by simp [dirItem, FileItem.init, fsD])

/-- Claim C9: saving settings with an empty API-key input stores the empty
string in the config (so no Authorization header is ever built) while
leaving the environment variable untouched; the variable is written only
when the new key is nonempty, and is never cleared. -/
theorem save_empty_key_env (cfg : UploadConfig) (env : Option String)
    (p l n k : String) :
    ((action_save cfg env "" p l n).1.api_key = some "" ∧
     (action_save cfg env "" p l n).2 = env ∧
     buildHeaders (action_save cfg env "" p l n).1 = []) ∧
    (k ≠ "" → (action_save cfg env k p l n).2 = some k) := by
  constructor
  · refine ⟨rfl, ?_, ?_⟩
    · simp [action_save, truthy]
    · simp [action_save, buildHeaders, truthy]
  · intro hk
    simp [action_save, truthy, hk]

/-- Witness for C9 at concrete inputs: an empty key leaves the previously
exported value in place and builds no Authorization header, while a
nonempty key overwrites the variable. -/
theorem save_empty_key_env_check :
    (action_save cfg0 (some "OLDKEY") "" "x" "y" "z").2 = some "OLDKEY" ∧
    buildHeaders (action_save cfg0 (some "OLDKEY") "" "x" "y" "z").1 = [] ∧
    (action_save cfg0 (some "OLDKEY") "secret" "x" "y" "z").2 =
      some "secret" := by
  refine ⟨?_, ?_, ?_⟩
  · exact (save_empty_key_env cfg0 (some "OLDKEY") "x" "y" "z" "secret").1.2.1
  · exact (save_empty_key_env cfg0 (some "OLDKEY") "x" "y" "z" "secret").1.2.2
  · exact (save_empty_key_env cfg0 (some "OLDKEY") "x" "y" "z" "secret").2
      (by decide)

/-- Claim C10: constructing a FileItem for a path that no longer exists is
total and falls back to the defaults: not a directory, size zero, and the
name is the last path component. -/
theorem fileitem_vanished_defaults (fs : FS) (p : List String) (sel : Bool)
    (h : fs p = none) :
    (FileItem.init fs p sel).is_dir = false ∧
    (FileItem.init fs p sel).size = 0 ∧
    (FileItem.init fs p sel).name = pathName p := by
  refine ⟨?_, ?_, rfl⟩ <;> simp [FileItem.init, h]

/-- Witness for C10 at a concrete vanished path. -/
theorem fileitem_vanished_defaults_check :
    (FileItem.init fsGone ["home", "u", "ghost.txt"] true).is_dir = false ∧
    (FileItem.init fsGone ["home", "u", "ghost.txt"] true).size = 0 ∧
    (FileItem.init fsGone ["home", "u", "ghost.txt"] true).name =
      "ghost.txt" :=
  fileitem_vanished_defaults fsGone ["home", "u", "ghost.txt"] true rfl

/-- Claim C3: with a truthy parent_id the target URL is
base_url/parent_id/filename and no locationId parameter is ever sent;
otherwise a truthy location_id becomes the locationId query parameter on
base_url/filename; and a truthy note is base64-encoded into the note query
parameter in every case. -/
theorem build_request_precedence (cfg : UploadConfig) (fname : String) :
    (truthy cfg.parent_id = true →
      (buildRequest cfg fname).1 =
        cfg.base_url ++ "/" ++ cfg.parent_id.getD "" ++ "/" ++ fname ∧
      ∀ v, ("locationId", v) ∉ (buildRequest cfg fname).2) ∧
    (truthy cfg.parent_id = false → truthy cfg.location_id = true →
      (buildRequest cfg fname).1 = cfg.base_url ++ "/" ++ fname ∧
      ("locationId", cfg.location_id.getD "") ∈ (buildRequest cfg fname).2) ∧
    (truthy cfg.note = true →
      ("note", b64encode (utf8Bytes (cfg.note.getD ""))) ∈
        (buildRequest cfg fname).2) := by
  refine ⟨?_, ?_, ?_⟩
  · intro hp
    constructor
    · simp [buildRequest, hp]
    · intro v hv
      by_cases hn : truthy cfg.note = true
      · simp [buildRequest, hp, hn] at hv
      · simp only [Bool.not_eq_true] at hn
        simp [buildRequest, hp, hn] at hv
  · intro hp hl
    constructor
    · simp [buildRequest, hp, hl]
    · by_cases hn : truthy cfg.note = true
      · simp [buildRequest, hp, hl, hn]
      · simp only [Bool.not_eq_true] at hn
        simp [buildRequest, hp, hl, hn]
  · intro hn
    by_cases hp : truthy cfg.parent_id = true
    · simp [buildRequest, hp, hn]
    · simp only [Bool.not_eq_true] at hp
      by_cases hl : truthy cfg.location_id = true
      · simp [buildRequest, hp, hl, hn]
      · simp only [Bool.not_eq_true] at hl
        simp [buildRequest, hp, hl, hn]

/-- Witness for C3 at concrete configurations: with parent abc123, location
LOC1 and note hello the target is the parent URL, locationId is absent and
the note parameter is the base64 of hello; dropping the parent makes
locationId appear. -/
theorem build_request_precedence_check :
    (buildRequest cfgW "report.pdf").1 =
      "https://w.buzzheavier.com/abc123/report.pdf" ∧
    ("locationId", "LOC1") ∉ (buildRequest cfgW "report.pdf").2 ∧
    ("note", "aGVsbG8=") ∈ (buildRequest cfgW "report.pdf").2 ∧
    ("locationId", "LOC1") ∈ (buildRequest cfgL "report.pdf").2 := by
  refine ⟨?_, ?_, ?_, ?_⟩
  · have h := ((build_request_precedence cfgW "report.pdf").1 rfl).1
    rw [h]
    exact rfl
  · exact ((build_request_precedence cfgW "report.pdf").1 rfl).2 "LOC1"
  · have h := (build_request_precedence cfgW "report.pdf").2.2 rfl
    have e : b64encode (utf8Bytes (cfgW.note.getD "")) = "aGVsbG8=" := rfl
    rw [e] at h
    exact h
  · have h := (build_request_precedence cfgL "report.pdf").2.1 rfl rfl
    have e : cfgL.location_id.getD "" = "LOC1" := rfl
    rw [e] at h
    exact h.2

/-- Counterexample to claim C2 as stated: a 201 response whose body is the
valid JSON value null carries no parseable data.id, yet the outcome is not a
raw-text success - the membership test data in None raises a TypeError that
the except-JSONDecodeError handler does not catch, so do_upload returns a
failure with an Upload request failed message. -/
theorem resp_201_null_typeerror :
    interpretResponse iR 201 "null" =
      (iR, false,
       "Upload request failed: argument of type \x27NoneType\x27 is not iterable") ∧
    (interpretResponse iR 201 "null").2.1 = false :=
  ⟨rfl, rfl⟩

/-- Claim C2 (amended): a 201 response whose body decodes to a JSON object
with a nested data.id string synthesizes the public URL, stores it on the
FileItem and reports name: url; a 201 body that fails to decode as JSON, or
decodes such that the data.id membership test completes with a false result,
yields success with the stripped body as message (generic message when the
stripped body is empty); but a 201 body on which the membership test or the
id extraction raises (for example the non-iterable values null, numbers and
booleans) yields a failure with message Upload request failed: detail; a 200
response always takes the raw-text success path. -/
theorem resp_201_message_paths (f : FileItem) (text : String)
    (kvs kvs2 : List (String × Json)) (i : String) :
    (Json.parse text = some (Json.obj kvs) →
      objLookup kvs "data" = some (Json.obj kvs2) →
      objLookup kvs2 "id" = some (Json.str i) →
      interpretResponse f 201 text =
        ({ f with upload_url := some ("https://buzzheavier.com/" ++ i) }, true,
         f.name ++ ": " ++ ("https://buzzheavier.com/" ++ i))) ∧
    (Json.parse text = none →
      interpretResponse f 201 text = (f, true, rawMsg f text)) ∧
    (∀ j, Json.parse text = some j → extractId j = Except.ok none →
      interpretResponse f 201 text = (f, true, rawMsg f text)) ∧
    (∀ j e, Json.parse text = some j → extractId j = Except.error e →
      interpretResponse f 201 text =
        (f, false, "Upload request failed: " ++ e)) ∧
    (interpretResponse f 200 text = (f, true, rawMsg f text)) ∧
    (pyStrip text = "" →
      rawMsg f text = "File " ++ f.name ++ " uploaded successfully") := by
  refine ⟨?_, ?_, ?_, ?_, ?_, ?_⟩
  · intro hp hdata hid
    have he := extractId_obj kvs kvs2 i hdata hid
    simp [interpretResponse, hp, he, pyStr]
  · intro hp
    simp [interpretResponse, hp]
  · intro j hp he
    simp [interpretResponse, hp, he]
  · intro j e hp he
    simp [interpretResponse, hp, he]
  · unfold interpretResponse
    rw [if_pos (Or.inl rfl)]
    cases hp : Json.parse text with
    | none => rfl
    | some j => simp
  · intro ht
    simp [rawMsg, ht]

/-- Witness for C2 (amended) at concrete inputs: the spec scenario body with
data.id xyz9 gives the URL outcome with the stored link, and an undecodable
body gives the stripped-body success. -/
theorem resp_201_message_paths_check :
    interpretResponse iR 201 bodyIdW =
      ({ iR with upload_url := some "https://buzzheavier.com/xyz9" }, true,
       "report.pdf: https://buzzheavier.com/xyz9") ∧
    interpretResponse iR 201 "oops" = (iR, true, "oops") := by
  constructor
  · have h := (resp_201_message_paths iR bodyIdW kvsW kvs2W "xyz9").1
      rfl rfl rfl
    rw [h]
    exact rfl
  · have h := (resp_201_message_paths iR "oops" kvsW kvs2W "xyz9").2.1 rfl
    rw [h]
    exact rfl

/-- Counterexample to claim C4 as stated: the concrete FileItem iA is
selected and not a directory, yet its path does not exist in the snapshot
taken when the pipeline starts, and the pipeline produces no outcome at all
for it - the queue filter of UploadProgressScreen.__init__ silently drops
vanished files, so no does-not-exist failure outcome is recorded. -/
theorem vanished_file_skipped_silently :
    iA.is_selected = true ∧
    iA.is_dir = false ∧
    fsGone iA.path = none ∧
    pipelineFromSelection fsGone fsGone cfg0 net0 [iA] = [] :=
  ⟨rfl, rfl, rfl, rfl⟩

/-- Claim C4 (amended): a selected file that still exists when the pipeline
starts but whose path has vanished by the time its own upload runs yields a
failure outcome with message File does not exist: path, and the pipeline
continues: the files before and after it are processed unchanged and the
outcome count equals the queue length; a file already missing at pipeline
start is instead silently dropped from the queue with no outcome (see the
counterexample). -/
theorem vanished_after_start_failure (fs0 fs1 : FS) (cfg : UploadConfig)
    (net : String → List (String × String) → List (String × String) →
      Except String (Nat × String))
    (files xs ys : List FileItem) (f : FileItem)
    (hsplit : prepare_upload_files fs0 files = xs ++ f :: ys)
    (hgone : fs1 f.path = none) :
    pipelineFromSelection fs0 fs1 cfg net files =
      runPipeline (uploadStep fs1 cfg net) xs ++
        ((f, false, "File does not exist: " ++ pathStr f.path) ::
          runPipeline (uploadStep fs1 cfg net) ys) ∧
    (pipelineFromSelection fs0 fs1 cfg net files).length =
      (prepare_upload_files fs0 files).length := by
  constructor
  · unfold pipelineFromSelection
    rw [hsplit, runPipeline_append]
    have houtcome : outcomeOf (uploadStep fs1 cfg net) f =
        (f, false, "File does not exist: " ++ pathStr f.path) := by
      unfold outcomeOf uploadStep upload_file
      rw [hgone]
    rw [houtcome]
  · unfold pipelineFromSelection
    exact runPipeline_length _ _

/-- Witness for C4 (amended) at concrete inputs: iA exists in the start
snapshot, vanishes before its upload, and the pipeline records exactly the
does-not-exist failure for it. -/
theorem vanished_after_start_failure_check :
    pipelineFromSelection fsA fsGone cfg0 net0 [iA] =
      [(iA, false, "File does not exist: /u/a")] := by
  have h := (vanished_after_start_failure fsA fsGone cfg0 net0
    [iA] [] [] iA rfl rfl).1
  rw [h]
  exact rfl

/-- Counterexample to claim C5 as stated: with both concrete files selected
in the order a then b, toggling a off and then on again yields the order
b then a - membership is restored but the prior order is not, because
re-selection appends at the end. -/
theorem toggle_twice_changes_order :
    (toggle fsAB (toggle fsAB [iA, iB] ["u", "a"]) ["u", "a"]).map
        (fun f => f.path) ≠
      [iA, iB].map (fun f => f.path) := by
  decide

/-- Claim C5 (amended): for a live non-directory path p, toggling twice
restores the membership of every path in the Selection Set; when p was not
previously selected the list itself (order included) is restored exactly,
while a previously selected p is removed and then re-inserted at the end,
so the prior order is not preserved in general (see the counterexample). -/
theorem toggle_twice_membership (fs : FS) (sel : List FileItem)
    (p : List String) (hlive : selectablePath fs p = true) :
    (∀ q, hasPath (toggle fs (toggle fs sel p) p) q = hasPath sel q) ∧
    (hasPath sel p = false → toggle fs (toggle fs sel p) p = sel) := by
  constructor
  · intro q
    by_cases hsel : sel.any (fun f => f.path == p) = true
    · rw [toggle_eq fs sel p hlive, if_pos hsel]
      rw [toggle_eq fs _ p hlive]
      have hany : (sel.filter (fun f => !(f.path == p))).any
          (fun f => f.path == p) = false := filterPath_any_self sel p
      rw [if_neg (by simp [hany])]
      unfold hasPath
      rw [List.any_append]
      by_cases hq : p = q
      · subst hq
        simp [List.any_cons, FileItem.init, hsel]
      · have hpq : (p == q) = false := by simp [hq]
        simp [List.any_cons, FileItem.init, hpq,
          filterPath_any_other sel p q hpq]
    · have hselF : sel.any (fun f => f.path == p) = false := by
        simpa using hsel
      rw [toggle_twice_restore fs sel p hlive hselF]
  · intro hnp
    exact toggle_twice_restore fs sel p hlive (by simpa [hasPath] using hnp)

/-- Witness for C5 (amended) at concrete inputs: with only b selected,
toggling the live file path a twice restores the selection list exactly,
and in particular the membership of a is back to absent. -/
theorem toggle_twice_membership_check :
    toggle fsAB (toggle fsAB [iB] ["u", "a"]) ["u", "a"] = [iB] ∧
    hasPath (toggle fsAB (toggle fsAB [iB] ["u", "a"]) ["u", "a"])
      ["u", "a"] = hasPath [iB] ["u", "a"] := by
  constructor
  · exact (toggle_twice_membership fsAB [iB] ["u", "a"] (by decide)).2
      (by decide)
  · exact (toggle_twice_membership fsAB [iB] ["u", "a"] (by decide)).1
      ["u", "a"]

end BuzzUploader
